import Mathlib

/-!
Shallow embedding of `src/data_processor.py`, a pandas-based pipeline over an
in-memory table of air-quality measurements.  A DataFrame is modelled as a
`List` of rows; pandas boolean-mask selection `df[mask]` is `List.filter`
(which keeps the original row order).  Timestamps are modelled as `Nat`
seconds since an epoch, with one calendar day being `oneDay = 86400` seconds;
a date-like bound (a value `pd.to_datetime` parses from a calendar date) is a
day number `d`, parsed to the midnight timestamp `d * oneDay`.  Numeric
values are `Rat`, so the arithmetic mean is exact.
-/

/-- One day, in the `Nat`-seconds timestamp model (`pd.Timedelta(days=1)`). -/
def oneDay : Nat := 86400

/-- `pd.to_datetime` applied to a calendar date: midnight of that day. -/
def dateToTimestamp (day : Nat) : Nat := day * oneDay

/-- The calendar day a timestamp falls on. -/
def dayOf (t : Nat) : Nat := t / oneDay

/-- A fully-loaded measurement row (post-`load_and_process_data` schema):
`date` parsed to a timestamp, `value`/`lat`/`lon` known present. -/
structure Row where
  date : Nat
  location : String
  parameter : String
  value : Rat
  lat : Rat
  lon : Rat
deriving DecidableEq, Repr

/-- A raw CSV row as `pd.read_csv` materialises it: `value`, `lat`, `lon`
may be missing (NaN), and so may `location` and `parameter`; the `date`
column is kept abstract as an already-parsed timestamp (`pd.to_datetime`
succeeds on every row considered here; the load-time date-parse-failure
policy is outside this model). -/
structure RawRow where
  date : Nat
  location : Option String
  parameter : Option String
  value : Option Rat
  lat : Option Rat
  lon : Option Rat
deriving DecidableEq, Repr

/-- `df.dropna(subset=[value, lat, lon])` keeps a row iff none of the
three columns is missing. -/
def RawRow.complete (r : RawRow) : Bool :=
  r.value.isSome && r.lat.isSome && r.lon.isSome

/-- `load_and_process_data`: after reading and date-parsing, drop any row
with missing `value`, `lat` or `lon` (`df.dropna(subset=[value, lat, lon])`). -/
def load_and_process_data (rows : List RawRow) : List RawRow :=
  rows.filter RawRow.complete

/-- `filter_data_by_date_range df start_date end_date`: both bounds are
date-like values parsed by `pd.to_datetime` to midnight timestamps; one day
is added to the parsed end bound, then rows with
`start <= date < end + 1 day` are kept. -/
def filter_data_by_date_range (df : List Row) (start_date end_date : Nat) :
    List Row :=
  let s := dateToTimestamp start_date
  let e := dateToTimestamp end_date + oneDay
  df.filter (fun r => decide (s ≤ r.date) && decide (r.date < e))

/-- `filter_data_by_location df locations`: `if not locations: return df`,
otherwise keep rows whose `location` is in the list (`Series.isin`). -/
def filter_data_by_location (df : List Row) (locations : List String) :
    List Row :=
  if locations.isEmpty then df
  else df.filter (fun r => locations.contains r.location)

/-- The `parameters` argument of `filter_data_by_parameter` in the source is
dynamically typed: a single string or a list of strings. -/
inductive Parameters where
  | str (s : String)
  | list (l : List String)
deriving DecidableEq, Repr

/-- `filter_data_by_parameter df parameters`: a single string is wrapped
into a one-element list, then rows whose `parameter` is in the list are
kept (`Series.isin`). -/
def filter_data_by_parameter (df : List Row) (parameters : Parameters) :
    List Row :=
  let ps := match parameters with
    | .str s => [s]
    | .list l => l
  df.filter (fun r => ps.contains r.parameter)

/-- A row of the `groupby([date, location])[value].mean().reset_index()`
result: columns `date`, `location`, `value`. -/
structure TSRow where
  date : Nat
  location : String
  value : Rat
deriving DecidableEq, Repr

/-- The grouping key of `groupby([date, location])`. -/
def tsKey (r : Row) : Nat × String := (r.date, r.location)

/-- Strict lexicographic order on character lists, by code point — the order
pandas uses when sorting string group keys. -/
def charListLt : List Char → List Char → Bool
  | [], [] => false
  | [], _ :: _ => true
  | _ :: _, [] => false
  | a :: as, b :: bs => if a < b then true else if b < a then false else charListLt as bs

/-- Strict lexicographic order on `(date, location)` group keys: date first,
then location string. -/
def keyLt (a b : Nat × String) : Bool :=
  a.1 < b.1 || (a.1 == b.1 && charListLt a.2.data b.2.data)

/-- Insert a key into a list, before the first element it is `keyLt`-below
(insertion step of sorting the group keys ascending). -/
def insertKey (k : Nat × String) : List (Nat × String) → List (Nat × String)
  | [] => [k]
  | k2 :: rest => if keyLt k k2 then k :: k2 :: rest else k2 :: insertKey k rest

/-- Sort group keys ascending: pandas `groupby` emits its group keys in
sorted order (its default `sort=True`). -/
def sortKeys : List (Nat × String) → List (Nat × String)
  | [] => []
  | k :: rest => insertKey k (sortKeys rest)

/-- Arithmetic mean of a list of values (`Series.mean`). -/
def mean (xs : List Rat) : Rat := xs.sum / xs.length

/-- `aggregate_data_for_time_series df parameter freq`: keep rows whose
`parameter` column equals `parameter`, group by `(date, location)` and take
the mean `value` of each group, one output row per distinct key, keys in
sorted order.  The `freq` argument appears in the Python signature but is
never used in the body. -/
def aggregate_data_for_time_series (df : List Row) (parameter : String)
    (freq : String) : List TSRow :=
  let param_df := df.filter (fun r => r.parameter == parameter)
  let keys := sortKeys (param_df.map tsKey).dedup
  keys.map (fun k =>
    { date := k.1, location := k.2,
      value := mean ((param_df.filter
        (fun r => r.date == k.1 && r.location == k.2)).map Row.value) })

/-- A row of the `prepare_correlation_data` result: columns `date`,
`location`, and the two `value` columns renamed after `param1` and `param2`
(here `value1` and `value2`, since the embedding does not carry column
names). -/
structure CorrRow where
  date : Nat
  location : String
  value1 : Rat
  value2 : Rat
deriving DecidableEq, Repr

/-- `prepare_correlation_data df param1 param2`: restrict `df` to each
parameter, project to `(date, location, value)`, and inner-merge the two
sub-tables on `(date, location)` (`pd.merge(..., inner)`, which keeps
left row order and pairs every matching left/right row). -/
def prepare_correlation_data (df : List Row) (param1 param2 : String) :
    List CorrRow :=
  let df1 := df.filter (fun r => r.parameter == param1)
  let df2 := df.filter (fun r => r.parameter == param2)
  df1.flatMap (fun r1 =>
    (df2.filter (fun r2 => r2.date == r1.date && r2.location == r1.location)).map
      (fun r2 =>
        { date := r1.date, location := r1.location,
          value1 := r1.value, value2 := r2.value }))

/-- The three-row fixture of the time-series aggregation property
(dates `2024-01-01`, day number 19723 since the epoch). -/
def fixtureRows : List Row :=
  [⟨dateToTimestamp 19723, "A", "PM2.5", 10, 0, 0⟩,
   ⟨dateToTimestamp 19723, "A", "PM2.5", 20, 0, 0⟩,
   ⟨dateToTimestamp 19723, "B", "PM2.5", 5, 0, 0⟩]

/-! ### Helper lemmas -/

lemma filter_filter_self (p : α → Bool) (l : List α) :
    (l.filter p).filter p = l.filter p := by
  induction l with
  | nil => rfl
  | cons a l ih =>
    cases h : p a <;> simp [List.filter_cons, h, ih]

lemma length_filter_add_countP_not (p : α → Bool) (l : List α) :
    (l.filter p).length + l.countP (fun a => ! p a) = l.length := by
  induction l with
  | nil => rfl
  | cons a l ih =>
    cases h : p a <;>
      simp [List.filter_cons, List.countP_cons, h] <;> omega

lemma insertKey_perm (k : Nat × String) (l : List (Nat × String)) :
    (insertKey k l).Perm (k :: l) := by
  induction l with
  | nil => exact List.Perm.refl _
  | cons k2 rest ih =>
    unfold insertKey
    by_cases h : keyLt k k2 = true
    · simp [h]
    · simp only [h, if_false]
      exact (ih.cons k2).trans (List.Perm.swap k k2 rest)

lemma sortKeys_perm (l : List (Nat × String)) : (sortKeys l).Perm l := by
  induction l with
  | nil => exact List.Perm.refl _
  | cons k rest ih =>
    exact (insertKey_perm k (sortKeys rest)).trans (ih.cons k)

/-! ### Claims -/

/-- C4: `load_and_process_data` returns exactly the input rows whose
`value`, `lat` and `lon` are all present (N − M of N rows when M are
incomplete); rows with missing `location` or `parameter` are not dropped,
and every surviving row has non-missing `value`, `lat`, `lon`. -/
theorem load_and_process_data_drops_incomplete (rows : List RawRow) :
    (load_and_process_data rows).length =
      rows.length - rows.countP (fun r => ! r.complete) ∧
    (∀ r ∈ load_and_process_data rows,
      r.value.isSome ∧ r.lat.isSome ∧ r.lon.isSome) ∧
    (∀ r ∈ rows, r.complete → r ∈ load_and_process_data rows) := by
  refine ⟨?_, ?_, ?_⟩
  · have h := length_filter_add_countP_not RawRow.complete rows
    unfold load_and_process_data
    omega
  · intro r hr
    have h := (List.mem_filter.mp hr).2
    unfold RawRow.complete at h
    simp only [Bool.and_eq_true] at h
    exact ⟨h.1.1, h.1.2, h.2⟩
  · intro r hr hc
    exact List.mem_filter.mpr ⟨hr, hc⟩

/-- C4 witness: in a two-row fixture where the first row lacks `location`
and `parameter` but has all of `value`, `lat`, `lon` and the second row
lacks `value`, the first row survives loading. -/
theorem load_and_process_data_drops_incomplete_witness :
    (⟨0, none, none, some 1, some 2, some 3⟩ : RawRow) ∈
      load_and_process_data
        [⟨0, none, none, some 1, some 2, some 3⟩,
         ⟨0, some ("L"), some ("P"), none, some 2, some 3⟩] :=
  (load_and_process_data_drops_incomplete _).2.2 _ (by simp) (by rfl)

/-- C5: filtering by an empty parameter list is not an identity: it returns
the empty table, unlike `filter_data_by_location`, which returns its input
unchanged on an empty selector. -/
theorem filter_data_by_parameter_empty_not_identity (df : List Row) :
    filter_data_by_parameter df (.list []) = [] ∧
    filter_data_by_location df [] = df := by
  constructor
  · unfold filter_data_by_parameter
    simp [List.filter_eq_nil_iff]
  · rfl

/-- C6: `filter_data_by_location` with an empty selector returns the input
unchanged (identical rows, identical order); with a non-empty selector it
returns exactly the rows whose `location` is a member, in original order. -/
theorem filter_data_by_location_spec (df : List Row) (locations : List String) :
    (locations = [] → filter_data_by_location df locations = df) ∧
    (locations ≠ [] →
      (filter_data_by_location df locations).Sublist df ∧
      (filter_data_by_location df locations).length =
        df.countP (fun r => locations.contains r.location) ∧
      (∀ r : Row, r ∈ filter_data_by_location df locations ↔
        r ∈ df ∧ r.location ∈ locations)) := by
  constructor
  · rintro rfl
    rfl
  · intro hne
    have hE : locations.isEmpty = false := by
      cases locations with
      | nil => exact absurd rfl hne
      | cons a l => rfl
    unfold filter_data_by_location
    rw [if_neg (by simp [hE])]
    refine ⟨List.filter_sublist df, (List.countP_eq_length_filter _ df).symm, ?_⟩
    intro r
    simp [List.mem_filter]

/-- C6 witness: the empty selector leaves a concrete one-row table
unchanged, and a non-empty selector keeps a row whose location matches. -/
theorem filter_data_by_location_spec_witness :
    filter_data_by_location [⟨0, "A", "PM2.5", 1, 2, 3⟩] [] =
      [⟨0, "A", "PM2.5", 1, 2, 3⟩] ∧
    ((⟨0, "A", "PM2.5", 1, 2, 3⟩ : Row) ∈
      filter_data_by_location [⟨0, "A", "PM2.5", 1, 2, 3⟩] ["A"]) :=
  ⟨(filter_data_by_location_spec [⟨0, "A", "PM2.5", 1, 2, 3⟩] []).1 rfl,
   ((filter_data_by_location_spec [⟨0, "A", "PM2.5", 1, 2, 3⟩] ["A"]).2
      (by decide)).2.2 _ |>.mpr ⟨by simp, by simp⟩⟩

/-- C7: a scalar parameter argument is normalized to a one-element list:
filtering by the scalar and by the singleton list give identical results. -/
theorem filter_data_by_parameter_scalar_norm (df : List Row) (p : String) :
    filter_data_by_parameter df (.str p) =
      filter_data_by_parameter df (.list [p]) := rfl

/-- C8: each of the three filters is idempotent: applying it twice with the
same arguments equals applying it once. -/
theorem filters_idempotent (df : List Row) (s e : Nat)
    (locs : List String) (ps : Parameters) :
    filter_data_by_date_range (filter_data_by_date_range df s e) s e =
      filter_data_by_date_range df s e ∧
    filter_data_by_location (filter_data_by_location df locs) locs =
      filter_data_by_location df locs ∧
    filter_data_by_parameter (filter_data_by_parameter df ps) ps =
      filter_data_by_parameter df ps := by
  refine ⟨?_, ?_, ?_⟩
  · simp only [filter_data_by_date_range]
    exact filter_filter_self _ _
  · simp only [filter_data_by_location]
    by_cases h : locs.isEmpty <;> simp [h, filter_filter_self]
  · simp only [filter_data_by_parameter]
    exact filter_filter_self _ _

/-- C9: a date range whose start day is after its end day selects no rows
and raises no error: the result is the empty table. -/
theorem filter_data_by_date_range_empty_of_start_gt_end
    (df : List Row) (start_date end_date : Nat) (h : end_date < start_date) :
    filter_data_by_date_range df start_date end_date = [] := by
  unfold filter_data_by_date_range
  rw [List.eq_nil_iff_forall_not_mem]
  intro r hr
  have hm := (List.mem_filter.mp hr).2
  simp only [Bool.and_eq_true, decide_eq_true_eq] at hm
  unfold dateToTimestamp oneDay at hm
  omega

/-- C9 witness: start day 2, end day 1 on a one-row table yields the empty
table. -/
theorem filter_data_by_date_range_empty_of_start_gt_end_witness :
    filter_data_by_date_range [⟨0, "A", "PM2.5", 1, 2, 3⟩] 2 1 = [] :=
  filter_data_by_date_range_empty_of_start_gt_end _ 2 1 (by decide)

/-- C10: the `freq` argument of `aggregate_data_for_time_series` is dead:
any two values of `freq` give identical results — grouping is always by the
exact `date` value. -/
theorem aggregate_data_for_time_series_freq_irrelevant
    (df : List Row) (p f1 f2 : String) :
    aggregate_data_for_time_series df p f1 =
      aggregate_data_for_time_series df p f2 := rfl

/-- C1: the date-range filter is a sublist of the input (original order),
keeps exactly the rows with `start <= date < end + 1 day` (with the correct
multiplicity), includes every row dated on the end day itself, and excludes
every row dated the day after the end day. -/
theorem filter_data_by_date_range_spec (df : List Row) (s e : Nat) :
    (filter_data_by_date_range df s e).Sublist df ∧
    (filter_data_by_date_range df s e).length =
      df.countP (fun r => decide (dateToTimestamp s ≤ r.date) &&
        decide (r.date < dateToTimestamp e + oneDay)) ∧
    (∀ r : Row, r ∈ filter_data_by_date_range df s e ↔
      r ∈ df ∧ dateToTimestamp s ≤ r.date ∧ r.date < dateToTimestamp e + oneDay) ∧
    (∀ r ∈ df, dayOf r.date = e → dateToTimestamp s ≤ r.date →
      r ∈ filter_data_by_date_range df s e) ∧
    (∀ r ∈ df, dayOf r.date = e + 1 → r ∉ filter_data_by_date_range df s e) := by
  unfold filter_data_by_date_range
  refine ⟨List.filter_sublist df, (List.countP_eq_length_filter _ df).symm, ?_, ?_, ?_⟩
  · intro r
    simp [List.mem_filter]
  · intro r hr hd hs
    refine List.mem_filter.mpr ⟨hr, ?_⟩
    simp only [Bool.and_eq_true, decide_eq_true_eq]
    unfold dayOf dateToTimestamp oneDay at *
    omega
  · intro r hr hd hmem
    have hb := (List.mem_filter.mp hmem).2
    simp only [Bool.and_eq_true, decide_eq_true_eq] at hb
    unfold dayOf dateToTimestamp oneDay at *
    omega

/-- C1 witness: with bounds day 0 to day 1, a row dated 2am on day 1 (the
end day) is included. -/
theorem filter_data_by_date_range_spec_witness :
    (⟨dateToTimestamp 1 + 7200, "A", "PM2.5", 1, 2, 3⟩ : Row) ∈
      filter_data_by_date_range
        [⟨dateToTimestamp 1 + 7200, "A", "PM2.5", 1, 2, 3⟩] 0 1 :=
  (filter_data_by_date_range_spec _ 0 1).2.2.2.1 _ (by simp) (by decide) (by decide)

/-- C3: the time-series aggregation has one output row per distinct
`(date, location)` key of the parameter-matching rows, each output value is
the arithmetic mean of its group, the three-row fixture aggregates to the
two expected rows, and no matching rows gives the empty table. -/
theorem aggregate_data_for_time_series_spec (df : List Row) (p f : String) :
    ((aggregate_data_for_time_series df p f).map
      (fun row => (row.date, row.location))).Nodup ∧
    (∀ d l, ((d, l) ∈ (aggregate_data_for_time_series df p f).map
        (fun row => (row.date, row.location))) ↔
      ∃ r ∈ df, r.parameter = p ∧ r.date = d ∧ r.location = l) ∧
    (∀ row ∈ aggregate_data_for_time_series df p f,
      row.value = mean (((df.filter (fun r => r.parameter == p)).filter
        (fun r => r.date == row.date && r.location == row.location)).map
          Row.value)) ∧
    aggregate_data_for_time_series fixtureRows ("PM2.5") "D" =
      [⟨dateToTimestamp 19723, "A", 15⟩, ⟨dateToTimestamp 19723, "B", 5⟩] ∧
    ((∀ r ∈ df, r.parameter ≠ p) →
      aggregate_data_for_time_series df p f = []) := by
  have hmap : (aggregate_data_for_time_series df p f).map
      (fun row => (row.date, row.location)) =
      sortKeys ((df.filter (fun r => r.parameter == p)).map tsKey).dedup := by
    simp only [aggregate_data_for_time_series, List.map_map]
    exact List.map_id'' (fun k => Prod.mk.eta) _
  refine ⟨?_, ?_, ?_, ?_, ?_⟩
  · rw [hmap]
    exact ((sortKeys_perm _).nodup_iff).mpr (List.nodup_dedup _)
  · intro d l
    rw [hmap, (sortKeys_perm _).mem_iff, List.mem_dedup]
    simp only [List.mem_map, List.mem_filter, beq_iff_eq, tsKey, Prod.mk.injEq]
    constructor
    · rintro ⟨r, ⟨hr, hp⟩, hd, hl⟩
      exact ⟨r, hr, hp, hd, hl⟩
    · rintro ⟨r, hr, hp, hd, hl⟩
      exact ⟨r, ⟨hr, hp⟩, hd, hl⟩
  · intro row hrow
    simp only [aggregate_data_for_time_series, List.mem_map] at hrow
    obtain ⟨k, hk, rfl⟩ := hrow
    rfl
  · have hkeys : sortKeys ((fixtureRows.filter
        (fun r => r.parameter == "PM2.5")).map tsKey).dedup =
        [(dateToTimestamp 19723, "A"), (dateToTimestamp 19723, "B")] := by
      decide
    have hv1 : ((fixtureRows.filter (fun r => r.parameter == "PM2.5")).filter
        (fun r => r.date == dateToTimestamp 19723 && r.location == "A")).map
          Row.value = [10, 20] := rfl
    have hv2 : ((fixtureRows.filter (fun r => r.parameter == "PM2.5")).filter
        (fun r => r.date == dateToTimestamp 19723 && r.location == "B")).map
          Row.value = [5] := rfl
    simp only [aggregate_data_for_time_series, hkeys, List.map_cons,
      List.map_nil]
    simp only [hv1, hv2]
    norm_num [mean, TSRow.mk.injEq]
  · intro h
    have hnil : df.filter (fun r => r.parameter == p) = [] := by
      rw [List.filter_eq_nil_iff]
      intro r hr
      simpa using h r hr
    simp [aggregate_data_for_time_series, hnil, sortKeys]

/-- C3 witness: the aggregation of the empty table is empty, and the value
of the fixture output row for location A is the mean of its group. -/
theorem aggregate_data_for_time_series_spec_witness :
    aggregate_data_for_time_series [] "PM2.5" "D" = [] ∧
    (⟨dateToTimestamp 19723, "A", (15 : Rat)⟩ : TSRow).value =
      mean (((fixtureRows.filter (fun r => r.parameter == "PM2.5")).filter
        (fun r => r.date == dateToTimestamp 19723 && r.location == "A")).map
          Row.value) :=
  ⟨(aggregate_data_for_time_series_spec [] "PM2.5" "D").2.2.2.2 (by simp),
   (aggregate_data_for_time_series_spec fixtureRows ("PM2.5") "D").2.2.1 _
     (by rw [(aggregate_data_for_time_series_spec
        fixtureRows ("PM2.5") "D").2.2.2.1]; simp)⟩

/-- C2: the correlation preparation contains exactly the `(date, location)`
pairs for which both parameters have a recorded measurement (a pair present
on only one side is absent), every output row pairs the two measured
values, and if either side has no matching rows the result is empty. -/
theorem prepare_correlation_data_inner_join (df : List Row) (p1 p2 : String) :
    (∀ d l, (∃ c ∈ prepare_correlation_data df p1 p2,
        c.date = d ∧ c.location = l) ↔
      ((∃ r ∈ df, r.parameter = p1 ∧ r.date = d ∧ r.location = l) ∧
       (∃ r ∈ df, r.parameter = p2 ∧ r.date = d ∧ r.location = l))) ∧
    (∀ c ∈ prepare_correlation_data df p1 p2,
      ∃ r1 ∈ df, ∃ r2 ∈ df, r1.parameter = p1 ∧ r2.parameter = p2 ∧
        r2.date = r1.date ∧ r2.location = r1.location ∧
        c = ⟨r1.date, r1.location, r1.value, r2.value⟩) ∧
    (((∀ r ∈ df, r.parameter ≠ p1) ∨ (∀ r ∈ df, r.parameter ≠ p2)) →
      prepare_correlation_data df p1 p2 = []) := by
  refine ⟨?_, ?_, ?_⟩
  · intro d l
    simp only [prepare_correlation_data, List.mem_flatMap, List.mem_map,
      List.mem_filter, Bool.and_eq_true, beq_iff_eq]
    constructor
    · rintro ⟨c, ⟨r1, ⟨hr1, hp1⟩, r2, ⟨⟨hr2, hp2⟩, hdd, hll⟩, rfl⟩, hd, hl⟩
      exact ⟨⟨r1, hr1, hp1, hd, hl⟩, ⟨r2, hr2, hp2, by simpa [hdd] using hd,
        by simpa [hll] using hl⟩⟩
    · rintro ⟨⟨r1, hr1, hp1, hd1, hl1⟩, ⟨r2, hr2, hp2, hd2, hl2⟩⟩
      exact ⟨⟨r1.date, r1.location, r1.value, r2.value⟩,
        ⟨r1, ⟨hr1, hp1⟩, r2, ⟨⟨hr2, hp2⟩, by rw [hd1, hd2],
          by rw [hl1, hl2]⟩, rfl⟩, hd1, hl1⟩
  · intro c hc
    simp only [prepare_correlation_data, List.mem_flatMap, List.mem_map,
      List.mem_filter, Bool.and_eq_true, beq_iff_eq] at hc
    obtain ⟨r1, ⟨hr1, hp1⟩, r2, ⟨⟨hr2, hp2⟩, hdd, hll⟩, rfl⟩ := hc
    exact ⟨r1, hr1, r2, hr2, hp1, hp2, hdd, hll, rfl⟩
  · rintro (h | h)
    · have hnil : df.filter (fun r => r.parameter == p1) = [] := by
        rw [List.filter_eq_nil_iff]
        intro r hr
        simpa using h r hr
      simp [prepare_correlation_data, hnil]
    · have hnil : df.filter (fun r => r.parameter == p2) = [] := by
        rw [List.filter_eq_nil_iff]
        intro r hr
        simpa using h r hr
      simp [prepare_correlation_data, hnil, List.flatMap_eq_nil_iff]

/-- C2 witness: with one row per parameter at the same `(date, location)`
pair the output contains that pair, and with a single row of an unrelated
parameter the output is empty. -/
theorem prepare_correlation_data_inner_join_witness :
    (∃ c ∈ prepare_correlation_data
        [⟨0, "A", "P1", 1, 0, 0⟩, ⟨0, "A", "P2", 2, 0, 0⟩] "P1" "P2",
      c.date = 0 ∧ c.location = "A") ∧
    prepare_correlation_data [⟨0, "A", "X", 1, 2, 3⟩] "P1" "P2" = [] :=
  ⟨((prepare_correlation_data_inner_join
      [⟨0, "A", "P1", 1, 0, 0⟩, ⟨0, "A", "P2", 2, 0, 0⟩] "P1" "P2").1 0 ("A")).mpr
      ⟨⟨⟨0, "A", "P1", 1, 0, 0⟩, by simp, rfl, rfl, rfl⟩,
       ⟨⟨0, "A", "P2", 2, 0, 0⟩, by simp, rfl, rfl, rfl⟩⟩,
   (prepare_correlation_data_inner_join _ ("P1") "P2").2.2
     (Or.inl (fun r hr => by
       simp only [List.mem_singleton] at hr
       subst hr
       decide))⟩
